import Mathlib

/-!
Shallow embedding of the narimanamiri/videoprocessor pipeline services:
caption-generator, ai-caption-agent, video-processor and file-assembler
(each from its app.py). Pipeline records (Python dicts with string keys)
are modelled extensionally as partial maps from keys to JSON-like values;
filesystem and network effects are supplied by explicit oracle structures.
Machine floats carrying durations and timestamps are modelled as rationals.
-/

/-- JSON-like value stored in a pipeline record (a Python dict value). -/
inductive Val where
  | str : String → Val
  | num : ℚ → Val
  | list : List Val → Val
  | dict : List (String × Val) → Val
  | null : Val

/-- A Python dict with string keys, modelled extensionally. -/
def PyDict : Type := String → Option Val

/-- The empty dict. -/
def PyDict.empty : PyDict := fun _ => none

/-- Assignment d[k] = v. -/
def PyDict.set (d : PyDict) (k : String) (v : Val) : PyDict :=
  fun q => if q = k then some v else d q

/-- Python d.update(other): every key of other overwrites the entry in d. -/
def PyDict.update (d other : PyDict) : PyDict :=
  fun q =>
    match other q with
    | some v => some v
    | none => d q

/-- Python str.split(sep) for a one-character separator, on character lists. -/
def splitChar (sep : Char) : List Char → List (List Char)
  | [] => [[]]
  | c :: rest =>
    match splitChar sep rest with
    | [] => [[c]]
    | h :: t => if c = sep then [] :: h :: t else (c :: h) :: t

/-- Python s.split(sep) for a one-character separator. -/
def pySplit (s : String) (sep : Char) : List String :=
  (splitChar sep s.data).map String.mk

/-- Python str.strip(): remove leading and trailing whitespace. -/
def pyStrip (s : String) : String :=
  String.mk (((s.data.dropWhile Char.isWhitespace).reverse.dropWhile
    Char.isWhitespace).reverse)

/-- Python str.startswith. -/
def pyStartsWith (s pre : String) : Bool := pre.data.isPrefixOf s.data

/-- Python str.replace on character lists, replacing every occurrence of the
(nonempty) pattern left to right; the fuel is the list length, which is enough
because every step consumes at least one character. -/
def replaceFuel (pat repl : List Char) : Nat → List Char → List Char
  | _, [] => []
  | 0, cs => cs
  | Nat.succ fuel, c :: rest =>
    if pat.isPrefixOf (c :: rest) then
      repl ++ replaceFuel pat repl fuel (List.drop (pat.length - 1) rest)
    else c :: replaceFuel pat repl fuel rest

/-- Python s.replace(pat, repl): every occurrence replaced. -/
def pyReplace (s pat repl : String) : String :=
  String.mk (replaceFuel pat.data repl.data s.data.length s.data)

/-- Python s[:n]. -/
def pyTake (s : String) (n : Nat) : String := String.mk (s.data.take n)

/-- Python len(s). -/
def pyLen (s : String) : Nat := s.data.length

/-- Python str.strip(cs): remove leading and trailing characters from the set cs. -/
def pyStripChars (s : String) (cs : List Char) : String :=
  String.mk (((s.data.dropWhile (fun c => cs.contains c)).reverse.dropWhile
    (fun c => cs.contains c)).reverse)

/-- pathlib Path.name: the final nonempty segment between slashes. -/
def pathName (p : String) : String :=
  (pySplit p '/').foldl (fun acc seg => if seg = "" then acc else seg) ""

/-- Index of the last dot in a character list, if any (Python str.rfind). -/
def lastDotIdx (cs : List Char) : Option Nat :=
  (List.range cs.length).foldl (fun acc i => if cs.getD i ' ' = '.' then some i else acc) none

/-- pathlib Path.stem: the final component without its suffix; a dot at the
start or the end of the name does not open a suffix. -/
def pathStem (p : String) : String :=
  let n := pathName p
  let cs := n.toList
  match lastDotIdx cs with
  | some i => if 0 < i ∧ i + 1 < cs.length then String.mk (cs.take i) else n
  | none => n

/-- The record built on every except branch of the services:
the pair of fields error = message and status = error. -/
def errorRecord (msg : String) : PyDict :=
  (PyDict.empty.set "error" (Val.str msg)).set "status" (Val.str "error")

namespace CaptionGenerator

/-- Python int(x): truncation toward zero. -/
def pyInt (x : ℚ) : ℤ := if x < 0 then ⌈x⌉ else ⌊x⌋

/-- Python x // y: floor division (the result is again a float, here a rational). -/
def pyFloorDiv (x y : ℚ) : ℚ := (⌊x / y⌋ : ℤ)

/-- Python x % y, defined by x - y * (x // y). -/
def pyMod (x y : ℚ) : ℚ := x - y * pyFloorDiv x y

/-- Python format n:02d / n:03d on the nonnegative integers the code feeds it:
decimal digits left-padded with zeros to the requested width. -/
def padZero (w : Nat) (n : ℤ) : String :=
  let s := toString n
  String.mk (List.replicate (w - s.length) '0') ++ s

/-- CaptionGenerator.format_timestamp, src/caption-generator/app.py lines 97-104. -/
def format_timestamp (seconds : ℚ) : String :=
  let hours : ℤ := pyInt (pyFloorDiv seconds 3600)
  let minutes : ℤ := pyInt (pyFloorDiv (pyMod seconds 3600) 60)
  let secs : ℚ := pyMod seconds 60
  let millis : ℤ := pyInt ((secs - (pyInt secs : ℚ)) * 1000)
  let secsI : ℤ := pyInt secs
  padZero 2 hours ++ ":" ++ padZero 2 minutes ++ ":" ++ padZero 2 secsI ++ "," ++ padZero 3 millis

/-- One Whisper segment: start time, end time, text. -/
structure Segment where
  start : ℚ
  stop : ℚ
  text : String

/-- Result of model.transcribe: segments, full text, detected language
(a missing language key is modelled as none). -/
structure TranscribeResult where
  segments : List Segment
  text : String
  language : Option String

/-- One block written by create_srt_file for the segment with 1-based index i. -/
def srtBlock (i : Nat) (seg : Segment) : String :=
  toString i ++ "\n" ++ format_timestamp seg.start ++ " --> " ++ format_timestamp seg.stop
    ++ "\n" ++ pyStrip seg.text ++ "\n\n"

/-- Content written by create_srt_file, lines 80-90: blocks numbered from 1. -/
def srtContent (segments : List Segment) : String :=
  String.join ((segments.enumFrom 1).map (fun p => srtBlock p.1 p.2))

/-- Oracle for one generate_subtitles call: which effects succeed and with
which exception messages the failing ones raise. -/
structure SubtitleEnv where
  videoExists : Bool
  extractError : Option String
  transcribeResult : Except String TranscribeResult
  srtWriteError : Option String
  transcriptWriteError : Option String

/-- CaptionGenerator.generate_subtitles, lines 34-78. Returns the response
record together with whether the temporary audio file
output_dir/temp_audio.wav is still on disk when the function returns.
Step order follows the code: existence check, audio extraction (which
creates the temp file), transcription, SRT write, transcript write, then
unlink of the temp file with missing_ok (absence is not an error) on the
success path; any exception is caught by the except branch, which returns
the error record. -/
def generate_subtitles (env : SubtitleEnv) (video_path output_dir : String) :
    PyDict × Bool :=
  if !env.videoExists then
    (errorRecord ("Video file not found: " ++ video_path), false)
  else
    match env.extractError with
    | some msg => (errorRecord msg, false)
    | none =>
      match env.transcribeResult with
      | Except.error msg => (errorRecord msg, true)
      | Except.ok tr =>
        match env.srtWriteError with
        | some msg => (errorRecord msg, true)
        | none =>
          match env.transcriptWriteError with
          | some msg => (errorRecord msg, true)
          | none =>
            let srt_path := output_dir ++ "/" ++ pathStem video_path ++ ".srt"
            let transcript_path := output_dir ++ "/" ++ pathStem video_path ++ "_transcript.txt"
            ((((((PyDict.empty.set "srt_path" (Val.str srt_path)).set
                "transcript_path" (Val.str transcript_path)).set
                "transcript" (Val.str tr.text)).set
                "language" (Val.str (tr.language.getD "en"))).set
                "status" (Val.str "subtitles_generated")), false)

/-- Lines 144-150 of generate_subtitles_endpoint: on the success path the
handler runs result.update(data) and emits the merged record. -/
def generate_subtitles_endpoint_result (result data : PyDict) : PyDict :=
  PyDict.update result data

end CaptionGenerator

namespace AICaptionAgent

/-- The four fields every return of generate_captions carries. -/
structure Captions where
  title : String
  description : String
  tags : List String
  status : String

/-- AICaptionAgent._create_fallback_captions, src/ai-caption-agent/app.py lines 128-135. -/
def create_fallback_captions (video_name video_type : String) : Captions :=
  { title := "Great " ++ video_type ++ " - " ++ video_name
    description := "Watch this amazing " ++ video_type ++ " video about " ++ video_name
      ++ ". Don\x27t forget to like and subscribe for more great content!"
    tags := [video_type, video_name, "video", "content", "must watch"]
    status := "captions_generated" }

/-- The transcript preview rule of _create_prompt, line 77. -/
def transcript_preview (transcript : String) : String :=
  if pyLen transcript > 800 then pyTake transcript 800 ++ "..." else transcript

/-- Body of the parsing loop of _parse_response, lines 108-119, acting on the
running title, description and tags. -/
def parse_line (line : String) (title description : String) (tags : List String) :
    String × String × List String :=
  let l := pyStrip line
  if pyStartsWith l "TITLE:" then
    let t := pyStrip (pyReplace l "TITLE:" "")
    let t := if pyLen t > 60 then pyTake t 57 ++ "..." else t
    (t, description, tags)
  else if pyStartsWith l "DESCRIPTION:" then
    (title, pyStrip (pyReplace l "DESCRIPTION:" ""), tags)
  else if pyStartsWith l "TAGS:" then
    let tagsStr := pyStripChars (pyStrip (pyReplace l "TAGS:" "")) ['[', ']']
    (title, description, ((pySplit tagsStr ',').map pyStrip).filter (fun t => t ≠ ""))
  else
    (title, description, tags)

/-- AICaptionAgent._parse_response, lines 101-126. -/
def parse_response (response_text video_name video_type : String) : Captions :=
  let init : String × String × List String :=
    ("Awesome " ++ video_type ++ " - " ++ video_name,
     "Watch this engaging " ++ video_type ++ " video about " ++ video_name
       ++ ". Don\x27t forget to like and subscribe for more content!",
     [video_type, video_name, "video", "content", "awesome"])
  let fin := (pySplit response_text '\n').foldl
    (fun acc line => parse_line line acc.1 acc.2.1 acc.2.2) init
  { title := fin.1, description := fin.2.1, tags := fin.2.2, status := "captions_generated" }

/-- AICaptionAgent.generate_captions, lines 63-74. generated_text is the
stripped Ollama response; generate_with_ollama returns the empty string when
the request fails, so the empty string is exactly the failure case. -/
def generate_captions (transcript video_type video_name : String) (duration : ℚ)
    (generated_text : String) : Captions :=
  if generated_text = "" then create_fallback_captions video_name video_type
  else parse_response generated_text video_name video_type

/-- A captions result as a record fragment, as jsonify serialises it. -/
def Captions.toDict (c : Captions) : PyDict :=
  (((PyDict.empty.set "title" (Val.str c.title)).set
    "description" (Val.str c.description)).set
    "tags" (Val.list (c.tags.map Val.str))).set
    "status" (Val.str c.status)

/-- Line 170 of generate_captions_endpoint: the double-splat merge where the
freshly generated captions override the incoming data. -/
def generate_captions_endpoint_result (data : PyDict) (captions : Captions) : PyDict :=
  PyDict.update data captions.toDict

end AICaptionAgent

namespace VideoProcessor

/-- Oracle for one process_video call: whether the input file exists, the
duration get_video_duration reports (none when it cannot be determined), and
the exception message of process_shorts / process_standard, if they raise. -/
structure ProcessEnv where
  videoExists : Bool
  probeDuration : Option ℚ
  ffmpegError : Option String

/-- VideoProcessor.process_video, src/video-processor/app.py lines 32-71;
output_dir comes from the constructor. -/
def process_video (env : ProcessEnv) (output_dir video_path : String) : PyDict :=
  if !env.videoExists then
    errorRecord ("Video file not found: " ++ video_path)
  else
    match env.probeDuration with
    | none => errorRecord "Could not determine video duration"
    | some duration =>
      let is_short := duration ≤ 60
      let output_filename := "processed_" ++ pathStem video_path ++ ".mp4"
      let output_path := output_dir ++ "/" ++ output_filename
      match env.ffmpegError with
      | some msg => errorRecord msg
      | none =>
        let video_type := if is_short then "shorts" else "standard"
        (((((PyDict.empty.set "original_path" (Val.str video_path)).set
          "processed_path" (Val.str output_path)).set
          "duration" (Val.num duration)).set
          "video_type" (Val.str video_type)).set
          "output_filename" (Val.str output_filename)).set
          "status" (Val.str "processed")

end VideoProcessor

namespace FileAssembler

/-- One entry of the files list of the results record. -/
def fileEntry (ftype path name : String) : Val :=
  Val.dict [("type", Val.str ftype), ("path", Val.str path), ("name", Val.str name)]

/-- String value of a record field; the code applies string operations only
to string-valued fields. -/
def valStr : Val → String
  | Val.str s => s
  | _ => ""

/-- Content of processing_summary.json, lines 92-100. -/
def summaryContent (video_data : PyDict) : Val :=
  Val.dict
    [("original_video", (video_data "original_path").getD Val.null),
     ("video_type", (video_data "video_type").getD Val.null),
     ("duration", (video_data "duration").getD Val.null),
     ("processing_steps", Val.str "completed"),
     ("transcript_length",
       Val.num (pyLen (valStr ((video_data "transcript").getD (Val.str ""))) : ℚ)),
     ("language", (video_data "language").getD (Val.str "en"))]

/-- FileAssembler.assemble_final_output, src/file-assembler/app.py lines
14-110, with fsExists the filesystem existence oracle for the source files it
copies. Returns the results record and the list of paths written into the
final folder. The name of a path built by appending one clean component is
that component. -/
def assemble_final_output (fsExists : String → Bool) (output_dir : String)
    (video_data : PyDict) : PyDict × List String :=
  let video_name :=
    pyReplace (pyReplace (pyReplace
      (match video_data "video_name" with
       | some v => valStr v
       | none => "unknown") ".mp4" "") ".mov" "") ".avi" ""
  let final_folder := output_dir ++ "/" ++ video_name
  -- processed video copy, lines 33-43
  let step1 : List Val × List (String × Val) × List String :=
    match video_data "processed_path" with
    | some v =>
      let src := valStr v
      if fsExists src then
        let name := "final_" ++ pathName src
        let dest := final_folder ++ "/" ++ name
        ([fileEntry "video" dest name], [("video_file", Val.str dest)], [dest])
      else ([], [], [])
    | none => ([], [], [])
  -- subtitle file copy, lines 46-56, first loop iteration
  let srtStep : List Val × List String :=
    match video_data "srt_path" with
    | some v =>
      let src := valStr v
      if fsExists src then
        let dest := final_folder ++ "/" ++ pathName src
        ([fileEntry "subtitle" dest (pathName src)], [dest])
      else ([], [])
    | none => ([], [])
  -- transcript file copy, lines 46-56, second loop iteration
  let transcriptStep : List Val × List String :=
    match video_data "transcript_path" with
    | some v =>
      let src := valStr v
      if fsExists src then
        let dest := final_folder ++ "/" ++ pathName src
        ([fileEntry "transcript" dest (pathName src)], [dest])
      else ([], [])
    | none => ([], [])
  -- AI captions, lines 59-88
  let capStep : List Val × List String :=
    if (video_data "title").isSome && (video_data "description").isSome then
      ([fileEntry "metadata" (final_folder ++ "/youtube_metadata.json") "youtube_metadata.json",
        fileEntry "captions" (final_folder ++ "/video_captions.txt") "video_captions.txt"],
       [final_folder ++ "/youtube_metadata.json", final_folder ++ "/video_captions.txt"])
    else ([], [])
  -- processing summary, lines 91-105, unconditional
  let summaryPath := final_folder ++ "/processing_summary.json"
  let files := step1.1 ++ srtStep.1 ++ transcriptStep.1 ++ capStep.1
    ++ [fileEntry "summary" summaryPath "processing_summary.json"]
  let written := step1.2.2 ++ srtStep.2 ++ transcriptStep.2 ++ capStep.2 ++ [summaryPath]
  let results :=
    ((((PyDict.empty.set "video_name" (Val.str video_name)).set
      "output_folder" (Val.str final_folder)).set
      "files" (Val.list files)).set
      "metadata" (Val.dict step1.2.1)).set
      "status" (Val.str "files_assembled")
  (results, written)

end FileAssembler

section Lemmas

open CaptionGenerator AICaptionAgent VideoProcessor FileAssembler

lemma pyInt_intCast (n : ℤ) : pyInt ((n : ℚ)) = n := by
  unfold pyInt
  split
  · exact Int.ceil_intCast n
  · exact Int.floor_intCast n

lemma pyInt_of_nonneg {x : ℚ} (h : 0 ≤ x) : pyInt x = ⌊x⌋ := by
  unfold pyInt
  rw [if_neg (not_lt.mpr h)]

lemma pyMod_nonneg (x : ℚ) {y : ℚ} (hy : 0 < y) : 0 ≤ pyMod x y := by
  unfold pyMod pyFloorDiv
  rw [mul_comm]
  exact Int.sub_floor_div_mul_nonneg x hy

lemma floor_scale_bounds (x y : ℚ) (n : ℤ) (hn : 0 < n) (hyn : (n : ℚ) = y) :
    0 ≤ ⌊x⌋ - n * ⌊x / y⌋ ∧ ⌊x⌋ - n * ⌊x / y⌋ < n := by
  subst hyn
  have hnq : (0 : ℚ) < (n : ℚ) := by exact_mod_cast hn
  constructor
  · have h1 : ((n * ⌊x / (n : ℚ)⌋ : ℤ) : ℚ) ≤ x := by
      push_cast
      calc (n : ℚ) * ⌊x / (n : ℚ)⌋ ≤ (n : ℚ) * (x / n) :=
            mul_le_mul_of_nonneg_left (Int.floor_le _) hnq.le
        _ = x := by rw [mul_comm]; exact div_mul_cancel₀ x (ne_of_gt hnq)
    have h2 := Int.le_floor.mpr h1
    omega
  · have h3 : x < ((n * ⌊x / (n : ℚ)⌋ + n : ℤ) : ℚ) := by
      push_cast
      calc x = x / (n : ℚ) * (n : ℚ) := (div_mul_cancel₀ x (ne_of_gt hnq)).symm
        _ < ((⌊x / (n : ℚ)⌋ : ℚ) + 1) * (n : ℚ) :=
            mul_lt_mul_of_pos_right (Int.lt_floor_add_one _) hnq
        _ = (n : ℚ) * (⌊x / (n : ℚ)⌋ : ℚ) + (n : ℚ) := by ring
    have h4 := Int.floor_lt.mpr h3
    omega

end Lemmas

/-- C1: for every nonnegative duration s, format_timestamp produces the
padded string whose pieces are the hour, the minute of the hour, the second
of the minute, and the millisecond truncated (floored) from the fractional
seconds, with the minute and second pieces below 60 and the millisecond piece
below 1000; moreover format(3725.4567) is 01:02:05,456 (truncation, not
rounding) and format(0) is 00:00:00,000. -/
theorem C1_format_timestamp_shape :
    (∀ s : ℚ, 0 ≤ s →
      CaptionGenerator.format_timestamp s =
        CaptionGenerator.padZero 2 ⌊s / 3600⌋ ++ ":" ++
        CaptionGenerator.padZero 2 (⌊s / 60⌋ - 60 * ⌊s / 3600⌋) ++ ":" ++
        CaptionGenerator.padZero 2 (⌊s⌋ - 60 * ⌊s / 60⌋) ++ "," ++
        CaptionGenerator.padZero 3 (⌊s * 1000⌋ - 1000 * ⌊s⌋) ∧
      0 ≤ ⌊s / 60⌋ - 60 * ⌊s / 3600⌋ ∧ ⌊s / 60⌋ - 60 * ⌊s / 3600⌋ < 60 ∧
      0 ≤ ⌊s⌋ - 60 * ⌊s / 60⌋ ∧ ⌊s⌋ - 60 * ⌊s / 60⌋ < 60 ∧
      0 ≤ ⌊s * 1000⌋ - 1000 * ⌊s⌋ ∧ ⌊s * 1000⌋ - 1000 * ⌊s⌋ < 1000) ∧
    CaptionGenerator.format_timestamp (37254567 / 10000) = "01:02:05,456" ∧
    CaptionGenerator.format_timestamp 0 = "00:00:00,000" := by
  have main : ∀ s : ℚ, 0 ≤ s →
      CaptionGenerator.format_timestamp s =
        CaptionGenerator.padZero 2 ⌊s / 3600⌋ ++ ":" ++
        CaptionGenerator.padZero 2 (⌊s / 60⌋ - 60 * ⌊s / 3600⌋) ++ ":" ++
        CaptionGenerator.padZero 2 (⌊s⌋ - 60 * ⌊s / 60⌋) ++ "," ++
        CaptionGenerator.padZero 3 (⌊s * 1000⌋ - 1000 * ⌊s⌋) ∧
      0 ≤ ⌊s / 60⌋ - 60 * ⌊s / 3600⌋ ∧ ⌊s / 60⌋ - 60 * ⌊s / 3600⌋ < 60 ∧
      0 ≤ ⌊s⌋ - 60 * ⌊s / 60⌋ ∧ ⌊s⌋ - 60 * ⌊s / 60⌋ < 60 ∧
      0 ≤ ⌊s * 1000⌋ - 1000 * ⌊s⌋ ∧ ⌊s * 1000⌋ - 1000 * ⌊s⌋ < 1000 := by
    intro s _hs
    have hform : CaptionGenerator.format_timestamp s =
        CaptionGenerator.padZero 2 (CaptionGenerator.pyInt (CaptionGenerator.pyFloorDiv s 3600)) ++ ":" ++
        CaptionGenerator.padZero 2 (CaptionGenerator.pyInt
          (CaptionGenerator.pyFloorDiv (CaptionGenerator.pyMod s 3600) 60)) ++ ":" ++
        CaptionGenerator.padZero 2 (CaptionGenerator.pyInt (CaptionGenerator.pyMod s 60)) ++ "," ++
        CaptionGenerator.padZero 3 (CaptionGenerator.pyInt
          ((CaptionGenerator.pyMod s 60 -
            ((CaptionGenerator.pyInt (CaptionGenerator.pyMod s 60) : ℤ) : ℚ)) * 1000)) := rfl
    have h_hours : CaptionGenerator.pyInt (CaptionGenerator.pyFloorDiv s 3600) = ⌊s / 3600⌋ := by
      rw [show CaptionGenerator.pyFloorDiv s 3600 = ((⌊s / 3600⌋ : ℤ) : ℚ) from rfl, pyInt_intCast]
    have h3600 : CaptionGenerator.pyMod s 3600 = s - ((3600 * ⌊s / 3600⌋ : ℤ) : ℚ) := by
      unfold CaptionGenerator.pyMod CaptionGenerator.pyFloorDiv
      push_cast
      ring
    have h_minutes : CaptionGenerator.pyInt
        (CaptionGenerator.pyFloorDiv (CaptionGenerator.pyMod s 3600) 60) =
        ⌊s / 60⌋ - 60 * ⌊s / 3600⌋ := by
      rw [show CaptionGenerator.pyFloorDiv (CaptionGenerator.pyMod s 3600) 60 =
            ((⌊(CaptionGenerator.pyMod s 3600) / 60⌋ : ℤ) : ℚ) from rfl, pyInt_intCast]
      rw [h3600]
      have e : (s - ((3600 * ⌊s / 3600⌋ : ℤ) : ℚ)) / 60 = s / 60 - ((60 * ⌊s / 3600⌋ : ℤ) : ℚ) := by
        push_cast
        ring
      rw [e, Int.floor_sub_int]
    have h60 : CaptionGenerator.pyMod s 60 = s - ((60 * ⌊s / 60⌋ : ℤ) : ℚ) := by
      unfold CaptionGenerator.pyMod CaptionGenerator.pyFloorDiv
      push_cast
      ring
    have h_secs : CaptionGenerator.pyInt (CaptionGenerator.pyMod s 60) = ⌊s⌋ - 60 * ⌊s / 60⌋ := by
      rw [pyInt_of_nonneg (pyMod_nonneg s (by norm_num))]
      rw [h60, Int.floor_sub_int]
    have h_fract : CaptionGenerator.pyMod s 60 -
        ((CaptionGenerator.pyInt (CaptionGenerator.pyMod s 60) : ℤ) : ℚ) = Int.fract s := by
      rw [h_secs, h60, ← Int.self_sub_floor]
      push_cast
      ring
    have h_millis : CaptionGenerator.pyInt
        ((CaptionGenerator.pyMod s 60 -
          ((CaptionGenerator.pyInt (CaptionGenerator.pyMod s 60) : ℤ) : ℚ)) * 1000) =
        ⌊s * 1000⌋ - 1000 * ⌊s⌋ := by
      rw [h_fract]
      rw [pyInt_of_nonneg (mul_nonneg (Int.fract_nonneg s) (by norm_num : (0 : ℚ) ≤ 1000))]
      have e : Int.fract s * 1000 = s * 1000 - ((1000 * ⌊s⌋ : ℤ) : ℚ) := by
        rw [← Int.self_sub_floor]
        push_cast
        ring
      rw [e, Int.floor_sub_int]
    have e1 : s / 60 / 60 = s / 3600 := by
      rw [div_div]
      norm_num
    have hbmin := floor_scale_bounds (s / 60) 60 60 (by norm_num) (by norm_num)
    rw [e1] at hbmin
    have hbsec := floor_scale_bounds s 60 60 (by norm_num) (by norm_num)
    have e2 : s * 1000 / 1000 = s := by
      rw [mul_div_assoc]
      norm_num
    have hbms := floor_scale_bounds (s * 1000) 1000 1000 (by norm_num) (by norm_num)
    rw [e2] at hbms
    refine ⟨?_, hbmin.1, hbmin.2, hbsec.1, hbsec.2, hbms.1, hbms.2⟩
    rw [hform, h_millis, h_secs, h_minutes, h_hours]
  refine ⟨main, ?_, ?_⟩
  · have h1 : (0 : ℚ) ≤ 37254567 / 10000 := by norm_num
    obtain ⟨he, -⟩ := main (37254567 / 10000) h1
    rw [he]
    have f1 : ⌊(37254567 / 10000 : ℚ) / 3600⌋ = 1 := by norm_num
    have f2 : ⌊(37254567 / 10000 : ℚ) / 60⌋ = 62 := by norm_num
    have f3 : ⌊(37254567 / 10000 : ℚ)⌋ = 3725 := by norm_num
    have f4 : ⌊(37254567 / 10000 : ℚ) * 1000⌋ = 3725456 := by norm_num
    rw [f1, f2, f3, f4]
    decide
  · obtain ⟨he, -⟩ := main 0 (le_refl 0)
    rw [he]
    have g1 : ⌊(0 : ℚ) / 3600⌋ = 0 := by norm_num
    have g2 : ⌊(0 : ℚ) / 60⌋ = 0 := by norm_num
    have g3 : ⌊(0 : ℚ)⌋ = 0 := by norm_num
    have g4 : ⌊(0 : ℚ) * 1000⌋ = 0 := by norm_num
    rw [g1, g2, g3, g4]
    decide

/-- C1 witness: the universal part of the timestamp theorem applied at the
concrete duration 0. -/
theorem C1_format_timestamp_shape_witness :
    (0 : ℚ) ≤ 0 ∧
    (CaptionGenerator.format_timestamp (0 : ℚ) =
      CaptionGenerator.padZero 2 ⌊(0 : ℚ) / 3600⌋ ++ ":" ++
      CaptionGenerator.padZero 2 (⌊(0 : ℚ) / 60⌋ - 60 * ⌊(0 : ℚ) / 3600⌋) ++ ":" ++
      CaptionGenerator.padZero 2 (⌊(0 : ℚ)⌋ - 60 * ⌊(0 : ℚ) / 60⌋) ++ "," ++
      CaptionGenerator.padZero 3 (⌊(0 : ℚ) * 1000⌋ - 1000 * ⌊(0 : ℚ)⌋) ∧
    0 ≤ ⌊(0 : ℚ) / 60⌋ - 60 * ⌊(0 : ℚ) / 3600⌋ ∧ ⌊(0 : ℚ) / 60⌋ - 60 * ⌊(0 : ℚ) / 3600⌋ < 60 ∧
    0 ≤ ⌊(0 : ℚ)⌋ - 60 * ⌊(0 : ℚ) / 60⌋ ∧ ⌊(0 : ℚ)⌋ - 60 * ⌊(0 : ℚ) / 60⌋ < 60 ∧
    0 ≤ ⌊(0 : ℚ) * 1000⌋ - 1000 * ⌊(0 : ℚ)⌋ ∧ ⌊(0 : ℚ) * 1000⌋ - 1000 * ⌊(0 : ℚ)⌋ < 1000) :=
  ⟨le_refl 0, C1_format_timestamp_shape.1 0 (le_refl 0)⟩

/-- C2: whenever process_video succeeds with probed duration d, the emitted
record classifies the video as shorts exactly when d is at most 60 seconds
and as standard otherwise. -/
theorem C2_shorts_classification (env : VideoProcessor.ProcessEnv) (d : ℚ)
    (output_dir video_path : String)
    (hdur : env.probeDuration = some d)
    (hst : (VideoProcessor.process_video env output_dir video_path) "status" =
      some (Val.str "processed")) :
    ((VideoProcessor.process_video env output_dir video_path) "video_type" =
        some (Val.str "shorts") ↔ d ≤ 60) ∧
    ((VideoProcessor.process_video env output_dir video_path) "video_type" =
        some (Val.str "standard") ↔ ¬ d ≤ 60) := by
  obtain ⟨ve, pd, fe⟩ := env
  have hpd : pd = some d := hdur
  subst hpd
  cases ve with
  | false =>
    exfalso
    have hr : (VideoProcessor.process_video ⟨false, some d, fe⟩ output_dir video_path) "status" =
        some (Val.str "error") := rfl
    rw [hr] at hst
    injection hst with h1
    injection h1 with h2
    exact absurd h2 (by decide)
  | true =>
    cases fe with
    | some msg =>
      exfalso
      have hr : (VideoProcessor.process_video ⟨true, some d, some msg⟩ output_dir video_path)
          "status" = some (Val.str "error") := rfl
      rw [hr] at hst
      injection hst with h1
      injection h1 with h2
      exact absurd h2 (by decide)
    | none =>
      have hvt : (VideoProcessor.process_video ⟨true, some d, none⟩ output_dir video_path)
          "video_type" = some (Val.str (if d ≤ 60 then "shorts" else "standard")) := rfl
      by_cases hd : d ≤ 60
      · rw [hvt, if_pos hd]
        refine ⟨⟨fun _ => hd, fun _ => rfl⟩, ⟨fun h => ?_, fun h => absurd hd h⟩⟩
        exfalso
        injection h with h1
        injection h1 with h2
        exact absurd h2 (by decide)
      · rw [hvt, if_neg hd]
        refine ⟨⟨fun h => ?_, fun h => absurd h hd⟩, ⟨fun _ => hd, fun _ => rfl⟩⟩
        exfalso
        injection h with h1
        injection h1 with h2
        exact absurd h2 (by decide)

/-- C2 witness: the classification theorem applied at the boundary duration
60, a succeeding run, showing the record is classified shorts. -/
theorem C2_shorts_classification_witness :
    (VideoProcessor.ProcessEnv.mk true (some 60) none).probeDuration = some 60 ∧
    (VideoProcessor.process_video ⟨true, some 60, none⟩ "/out" "/v/clip.mp4") "status" =
      some (Val.str "processed") ∧
    (((VideoProcessor.process_video ⟨true, some 60, none⟩ "/out" "/v/clip.mp4") "video_type" =
        some (Val.str "shorts") ↔ (60 : ℚ) ≤ 60) ∧
     ((VideoProcessor.process_video ⟨true, some 60, none⟩ "/out" "/v/clip.mp4") "video_type" =
        some (Val.str "standard") ↔ ¬ (60 : ℚ) ≤ 60)) :=
  ⟨rfl, rfl, C2_shorts_classification ⟨true, some 60, none⟩ 60 "/out" "/v/clip.mp4" rfl rfl⟩

/-- C3: generate_captions is total and always reports status
captions_generated, never status error, whatever the generation response
text is (empty string and prefix-free text included). -/
theorem C3_generate_captions_total (transcript video_type video_name : String)
    (duration : ℚ) (generated_text : String) :
    (AICaptionAgent.generate_captions transcript video_type video_name duration
        generated_text).status = "captions_generated" ∧
    (AICaptionAgent.generate_captions transcript video_type video_name duration
        generated_text).status ≠ "error" := by
  have hs : (AICaptionAgent.generate_captions transcript video_type video_name duration
      generated_text).status = "captions_generated" := by
    by_cases h : generated_text = ""
    · unfold AICaptionAgent.generate_captions
      rw [if_pos h]
      rfl
    · unfold AICaptionAgent.generate_captions
      rw [if_neg h]
      rfl
  refine ⟨hs, ?_⟩
  rw [hs]
  decide

/-- C4 counterexample: the response text hello has no TITLE: line, yet
generate_captions returns the parse defaults (Awesome title, awesome tag),
not the Great fallback the claim requires. -/
theorem C4_no_title_counterexample :
    (∀ l ∈ pySplit "hello" '\n', pyStartsWith (pyStrip l) "TITLE:" = false) ∧
    (AICaptionAgent.generate_captions "talk" "standard" "clip" 30 "hello").title =
      "Awesome standard - clip" ∧
    "Awesome standard - clip" ≠ "Great standard - clip" ∧
    (AICaptionAgent.generate_captions "talk" "standard" "clip" 30 "hello").tags =
      ["standard", "clip", "video", "content", "awesome"] ∧
    ["standard", "clip", "video", "content", "awesome"] ≠
      ["standard", "clip", "video", "content", "must watch"] := by
  refine ⟨by decide, by decide, by decide, by decide, by decide⟩

lemma parse_line_skip (line t d : String) (tg : List String)
    (h1 : pyStartsWith (pyStrip line) "TITLE:" = false)
    (h2 : pyStartsWith (pyStrip line) "DESCRIPTION:" = false)
    (h3 : pyStartsWith (pyStrip line) "TAGS:" = false) :
    AICaptionAgent.parse_line line t d tg = (t, d, tg) := by
  unfold AICaptionAgent.parse_line
  rw [if_neg (by simp [h1]), if_neg (by simp [h2]), if_neg (by simp [h3])]

lemma foldl_parse_skip (lines : List String)
    (h : ∀ l ∈ lines,
      pyStartsWith (pyStrip l) "TITLE:" = false ∧
      pyStartsWith (pyStrip l) "DESCRIPTION:" = false ∧
      pyStartsWith (pyStrip l) "TAGS:" = false)
    (acc : String × String × List String) :
    lines.foldl (fun acc line => AICaptionAgent.parse_line line acc.1 acc.2.1 acc.2.2) acc =
      acc := by
  induction lines generalizing acc with
  | nil => rfl
  | cons a as ih =>
    have ha := h a (List.mem_cons_self a as)
    rw [List.foldl_cons, parse_line_skip a acc.1 acc.2.1 acc.2.2 ha.1 ha.2.1 ha.2.2]
    exact ih (fun l hl => h l (List.mem_cons_of_mem a hl)) acc

/-- C4 amended: an empty generation response yields exactly the deterministic
fallback record (title Great type - name, the like-and-subscribe-for-more-
great-content description, tags ending in must watch), while a nonempty
response with no TITLE:, DESCRIPTION: or TAGS: line yields exactly the parse
default record (title Awesome type - name, the engaging description, tags
ending in awesome). -/
theorem C4_fallback_and_parse_defaults :
    (∀ (transcript video_type video_name : String) (duration : ℚ),
      AICaptionAgent.generate_captions transcript video_type video_name duration "" =
        { title := "Great " ++ video_type ++ " - " ++ video_name
          description := "Watch this amazing " ++ video_type ++ " video about " ++ video_name
            ++ ". Don\x27t forget to like and subscribe for more great content!"
          tags := [video_type, video_name, "video", "content", "must watch"]
          status := "captions_generated" }) ∧
    (∀ (transcript video_type video_name : String) (duration : ℚ) (generated_text : String),
      generated_text ≠ "" →
      (∀ l ∈ pySplit generated_text '\n',
        pyStartsWith (pyStrip l) "TITLE:" = false ∧
        pyStartsWith (pyStrip l) "DESCRIPTION:" = false ∧
        pyStartsWith (pyStrip l) "TAGS:" = false) →
      AICaptionAgent.generate_captions transcript video_type video_name duration
          generated_text =
        { title := "Awesome " ++ video_type ++ " - " ++ video_name
          description := "Watch this engaging " ++ video_type ++ " video about " ++ video_name
            ++ ". Don\x27t forget to like and subscribe for more content!"
          tags := [video_type, video_name, "video", "content", "awesome"]
          status := "captions_generated" }) := by
  constructor
  · intro transcript video_type video_name duration
    rfl
  · intro transcript video_type video_name duration generated_text hne hno
    unfold AICaptionAgent.generate_captions
    rw [if_neg hne]
    simp only [AICaptionAgent.parse_response]
    rw [foldl_parse_skip (pySplit generated_text '\n') hno]

/-- C4 witness: the amended theorem applied at the empty response and at the
response hello, which has no recognized prefix line. -/
theorem C4_fallback_and_parse_defaults_witness :
    (AICaptionAgent.generate_captions "talk" "standard" "clip" 30 "" =
      { title := "Great " ++ "standard" ++ " - " ++ "clip"
        description := "Watch this amazing " ++ "standard" ++ " video about " ++ "clip"
          ++ ". Don\x27t forget to like and subscribe for more great content!"
        tags := ["standard", "clip", "video", "content", "must watch"]
        status := "captions_generated" }) ∧
    ("hello" : String) ≠ "" ∧
    (∀ l ∈ pySplit "hello" '\n',
      pyStartsWith (pyStrip l) "TITLE:" = false ∧
      pyStartsWith (pyStrip l) "DESCRIPTION:" = false ∧
      pyStartsWith (pyStrip l) "TAGS:" = false) ∧
    AICaptionAgent.generate_captions "talk" "standard" "clip" 30 "hello" =
      { title := "Awesome " ++ "standard" ++ " - " ++ "clip"
        description := "Watch this engaging " ++ "standard" ++ " video about " ++ "clip"
          ++ ". Don\x27t forget to like and subscribe for more content!"
        tags := ["standard", "clip", "video", "content", "awesome"]
        status := "captions_generated" } :=
  ⟨C4_fallback_and_parse_defaults.1 "talk" "standard" "clip" 30,
   by decide,
   by decide,
   C4_fallback_and_parse_defaults.2 "talk" "standard" "clip" 30 "hello"
     (by decide) (by decide)⟩

/-- C5: the claim is right and the code is wrong. When the video exists,
audio extraction succeeds and transcription raises, generate_subtitles takes
the except branch and returns the error record while the temporary audio
file is still on disk: the unlink call sits on the success path only, with
no finally block, so this exceptional exit leaks the file. -/
theorem C5_temp_audio_leak_on_transcribe_failure :
    (CaptionGenerator.generate_subtitles
        ⟨true, none, Except.error "transcribe failed", none, none⟩
        "/v/clip.mp4" "/out").2 = true ∧
    (CaptionGenerator.generate_subtitles
        ⟨true, none, Except.error "transcribe failed", none, none⟩
        "/v/clip.mp4" "/out").1 "status" = some (Val.str "error") :=
  ⟨rfl, rfl⟩

/-- C6 counterexample: the Assembly stage drops incoming keys. The input
record carries the key transcript; the record assemble_final_output emits
does not. -/
theorem C6_assembler_drops_keys_counterexample :
    ((PyDict.empty.set "video_name" (Val.str "clip")).set "transcript" (Val.str "hello"))
        "transcript" = some (Val.str "hello") ∧
    (FileAssembler.assemble_final_output (fun _ => false) "/app/output"
        ((PyDict.empty.set "video_name" (Val.str "clip")).set "transcript"
          (Val.str "hello"))).1 "transcript" = none :=
  ⟨rfl, rfl⟩

/-- C6 amended: the append-only discipline holds for the two merging
handlers: the Transcription handler merges the incoming record over the
generated one and the Caption handler double-splats the captions over the
incoming record, so every key of the incoming record is still present in the
emitted record; the Transform and Assembly stages instead return fresh
records and do not preserve incoming keys. -/
theorem C6_merging_handlers_preserve_keys (genResult data : PyDict)
    (captions : AICaptionAgent.Captions) (k : String)
    (h : (data k).isSome = true) :
    ((CaptionGenerator.generate_subtitles_endpoint_result genResult data) k).isSome = true ∧
    ((AICaptionAgent.generate_captions_endpoint_result data captions) k).isSome = true := by
  constructor
  · unfold CaptionGenerator.generate_subtitles_endpoint_result PyDict.update
    cases hd : data k with
    | some v => rfl
    | none =>
      rw [hd] at h
      exact Bool.noConfusion h
  · unfold AICaptionAgent.generate_captions_endpoint_result PyDict.update
    cases hc : AICaptionAgent.Captions.toDict captions k with
    | some v => rfl
    | none => exact h

/-- C6 witness: key preservation through both merging handlers at a concrete
record holding the key x. -/
theorem C6_merging_handlers_preserve_keys_witness :
    ((PyDict.empty.set "x" (Val.num 1)) "x").isSome = true ∧
    (((CaptionGenerator.generate_subtitles_endpoint_result PyDict.empty
        (PyDict.empty.set "x" (Val.num 1))) "x").isSome = true ∧
     ((AICaptionAgent.generate_captions_endpoint_result
        (PyDict.empty.set "x" (Val.num 1)) ⟨"t", "d", [], "s"⟩) "x").isSome = true) :=
  ⟨rfl, C6_merging_handlers_preserve_keys PyDict.empty (PyDict.empty.set "x" (Val.num 1))
    ⟨"t", "d", [], "s"⟩ "x" rfl⟩

/-- C7 counterexample: when the probe cannot determine the duration the
error field carries the exception text Could not determine video duration,
not the message duration unavailable the claim states. -/
theorem C7_error_message_counterexample :
    (VideoProcessor.process_video ⟨true, none, none⟩ "/out" "/v/clip.mp4") "error" =
      some (Val.str "Could not determine video duration") ∧
    "Could not determine video duration" ≠ "duration unavailable" :=
  ⟨rfl, by decide⟩

/-- C7 amended: when the duration cannot be determined, process_video
returns status error with error Could not determine video duration and emits
no processed_path, duration or video_type key. -/
theorem C7_duration_unavailable_error (ffmpegError : Option String)
    (output_dir video_path : String) :
    (VideoProcessor.process_video ⟨true, none, ffmpegError⟩ output_dir video_path) "status" =
      some (Val.str "error") ∧
    (VideoProcessor.process_video ⟨true, none, ffmpegError⟩ output_dir video_path) "error" =
      some (Val.str "Could not determine video duration") ∧
    (VideoProcessor.process_video ⟨true, none, ffmpegError⟩ output_dir video_path)
      "processed_path" = none ∧
    (VideoProcessor.process_video ⟨true, none, ffmpegError⟩ output_dir video_path)
      "duration" = none ∧
    (VideoProcessor.process_video ⟨true, none, ffmpegError⟩ output_dir video_path)
      "video_type" = none :=
  ⟨rfl, rfl, rfl, rfl, rfl⟩

/-- C8: assembling a record that holds only video_name succeeds: the summary
document is written into the final folder, the files list is exactly the one
summary entry, and the status is files_assembled. -/
theorem C8_minimal_record_assembly (fsExists : String → Bool)
    (output_dir name : String) :
    (FileAssembler.assemble_final_output fsExists output_dir
        (PyDict.empty.set "video_name" (Val.str name))).1 "files" =
      some (Val.list [FileAssembler.fileEntry "summary"
        (output_dir ++ "/" ++ pyReplace (pyReplace (pyReplace name ".mp4" "") ".mov" "")
          ".avi" "" ++ "/processing_summary.json")
        "processing_summary.json"]) ∧
    (output_dir ++ "/" ++ pyReplace (pyReplace (pyReplace name ".mp4" "") ".mov" "")
        ".avi" "" ++ "/processing_summary.json") ∈
      (FileAssembler.assemble_final_output fsExists output_dir
        (PyDict.empty.set "video_name" (Val.str name))).2 ∧
    (FileAssembler.assemble_final_output fsExists output_dir
        (PyDict.empty.set "video_name" (Val.str name))).1 "status" =
      some (Val.str "files_assembled") := by
  refine ⟨rfl, ?_, rfl⟩
  have h2 : (FileAssembler.assemble_final_output fsExists output_dir
      (PyDict.empty.set "video_name" (Val.str name))).2 =
      [output_dir ++ "/" ++ pyReplace (pyReplace (pyReplace name ".mp4" "") ".mov" "")
        ".avi" "" ++ "/processing_summary.json"] := rfl
  rw [h2]
  exact List.Mem.head _

/-- C9: the fallback captions are a deterministic function of video_name and
video_type only: any two calls on equal inputs give identical title,
description and tags. -/
theorem C9_fallback_deterministic (n1 t1 n2 t2 : String) (hn : n1 = n2) (ht : t1 = t2) :
    (AICaptionAgent.create_fallback_captions n1 t1).title =
      (AICaptionAgent.create_fallback_captions n2 t2).title ∧
    (AICaptionAgent.create_fallback_captions n1 t1).description =
      (AICaptionAgent.create_fallback_captions n2 t2).description ∧
    (AICaptionAgent.create_fallback_captions n1 t1).tags =
      (AICaptionAgent.create_fallback_captions n2 t2).tags := by
  subst hn
  subst ht
  exact ⟨rfl, rfl, rfl⟩

/-- C9 witness: determinism of the fallback at a concrete pair of calls. -/
theorem C9_fallback_deterministic_witness :
    ("clip" : String) = "clip" ∧ ("shorts" : String) = "shorts" ∧
    ((AICaptionAgent.create_fallback_captions "clip" "shorts").title =
      (AICaptionAgent.create_fallback_captions "clip" "shorts").title ∧
     (AICaptionAgent.create_fallback_captions "clip" "shorts").description =
      (AICaptionAgent.create_fallback_captions "clip" "shorts").description ∧
     (AICaptionAgent.create_fallback_captions "clip" "shorts").tags =
      (AICaptionAgent.create_fallback_captions "clip" "shorts").tags) :=
  ⟨rfl, rfl, C9_fallback_deterministic "clip" "shorts" "clip" "shorts" rfl rfl⟩

/-- C10: in the Transcription handler the incoming request record is merged
over the freshly generated result, so for every key the incoming record
carries - the overlapping keys transcript, language, srt_path,
transcript_path and status included - the emitted record holds the incoming
value, not the freshly generated one. -/
theorem C10_incoming_record_wins (result data : PyDict) (k : String)
    (h : (data k).isSome = true) :
    CaptionGenerator.generate_subtitles_endpoint_result result data k = data k := by
  unfold CaptionGenerator.generate_subtitles_endpoint_result PyDict.update
  cases hd : data k with
  | some v => rfl
  | none =>
    rw [hd] at h
    exact Bool.noConfusion h

/-- C10 witness: with status present on both sides, the emitted record holds
the incoming status value. -/
theorem C10_incoming_record_wins_witness :
    ((PyDict.empty.set "status" (Val.str "incoming")) "status").isSome = true ∧
    CaptionGenerator.generate_subtitles_endpoint_result
        (PyDict.empty.set "status" (Val.str "subtitles_generated"))
        (PyDict.empty.set "status" (Val.str "incoming")) "status" =
      (PyDict.empty.set "status" (Val.str "incoming")) "status" :=
  ⟨rfl, C10_incoming_record_wins (PyDict.empty.set "status" (Val.str "subtitles_generated"))
    (PyDict.empty.set "status" (Val.str "incoming")) "status" rfl⟩
